import Mathlib

/-!
Shallow embedding of the instruction IR declared in `src/xenia/gpu/shader.h`
(Xenia, Xbox 360 GPU shader model), together with proofs of the derived-query
properties stated in the project specification.

Conventions of the embedding:
* C++ `uint32_t` / `uint64_t` values are `Nat`, with an explicit `% 2 ^ 32`
  wherever unsigned wraparound can matter.
* Fixed-size C arrays are embedded as functions from the index type
  (`Fin 3` for `vector_operands[3]`, `Nat` restricted to `0..3` for the
  four 64-bit blocks of `float_bitmap[256 / 64]`).
* The `UINT32_MAX` sentinel is the literal `4294967295`.
* Enumerations and helpers declared in `xenia/gpu/ucode.h` and
  `xenia/base/math.h` are not part of the given sources; they are modelled
  from the specification text and marked as such in their doc comments.
-/

namespace xe

/-- Modelled from the spec: `xe::bit_count` (declared in `xenia/base/math.h`,
which is not among the given sources) is an exact population count of a 64-bit
value, per the spec sentence that packing "must be implemented with an exact
bit population count". Arguments are `uint64_t`, so counting the 64 low bit
positions is exact. -/
def bit_count (v : Nat) : Nat :=
  (List.range 64).countP (fun i => v.testBit i)

namespace gpu

namespace ucode

/-- Modelled from the spec: `ucode::AluVectorOpcode` (declared in
`xenia/gpu/ucode.h`, which is not among the given sources). Constructors cover
the opcodes `shader.h` references by name (`kAdd` — the default member
initializer, `kMax` — the "max-style default" no-op opcode, `kMad` — the
multiply-add opcode) plus representative opcodes that the spec describes as
having side effects (predicate-push comparisons, pixel kills, and the
address-register-writing max). -/
inductive AluVectorOpcode
  | kAdd
  | kMul
  | kMax
  | kMin
  | kMad
  | kDp4
  | kSetpEqPush
  | kSetpNePush
  | kSetpGtPush
  | kSetpGePush
  | kKillEq
  | kKillGt
  | kKillGe
  | kKillNe
  | kMaxA
deriving DecidableEq

/-- Modelled from the spec: `ucode::AluScalarOpcode` (declared in
`xenia/gpu/ucode.h`, which is not among the given sources). Constructors cover
the opcodes `shader.h` references by name (`kAdds` — the default member
initializer, `kRetainPrev` — the "retain previous value" opcode). -/
inductive AluScalarOpcode
  | kAdds
  | kMuls
  | kMaxs
  | kRetainPrev
deriving DecidableEq

/-- Modelled from the spec: `ucode::AluVectorOpHasSideEffects` (declared in
`xenia/gpu/ucode.h`, which is not among the given sources). The spec says the
translation no-op test excludes "side-effect opcodes — e.g. ones that also
affect predicate state"; the predicate-push, kill and address-register opcodes
are the side-effecting ones. -/
def AluVectorOpHasSideEffects : AluVectorOpcode → Bool
  | .kSetpEqPush => true
  | .kSetpNePush => true
  | .kSetpGtPush => true
  | .kSetpGePush => true
  | .kKillEq => true
  | .kKillGt => true
  | .kKillGe => true
  | .kKillNe => true
  | .kMaxA => true
  | _ => false

end ucode

/-- The `UINT32_MAX` not-found sentinel. -/
def UINT32_MAX : Nat := 4294967295

/-- Embedding of `InstructionStorageTarget` from `shader.h`: destination classes. -/
inductive InstructionStorageTarget
  | kNone
  | kRegister
  | kInterpolator
  | kPosition
  | kPointSizeEdgeFlagKillVertex
  | kExportAddress
  | kExportData
  | kColor
  | kDepth
deriving DecidableEq

/-- Embedding of `GetInstructionStorageTargetUsedComponents` from `shader.h`: the fixed
component mask each target can physically hold. -/
def GetInstructionStorageTargetUsedComponents :
    InstructionStorageTarget → Nat
  | .kNone => 0b0000
  | .kPointSizeEdgeFlagKillVertex => 0b0111
  | .kDepth => 0b0001
  | _ => 0b1111

/-- Embedding of `InstructionStorageAddressingMode` from `shader.h`. -/
inductive InstructionStorageAddressingMode
  | kStatic
  | kAddressAbsolute
  | kAddressRelative
deriving DecidableEq

/-- Embedding of `SwizzleSource` from `shader.h`: the source value of one component. -/
inductive SwizzleSource
  | kX
  | kY
  | kZ
  | kW
  | k0
  | k1
deriving DecidableEq

/-- The underlying enumerator value of a `SwizzleSource` (the C++ enum is
backed by integers 0-5; `GetUsedResultComponents` compares and subtracts these
values). -/
def SwizzleSource.val : SwizzleSource → Nat
  | .kX => 0
  | .kY => 1
  | .kZ => 2
  | .kW => 3
  | .k0 => 4
  | .k1 => 5

/-- A 4-element `SwizzleSource components[4]` array, with the default member
initializer `{kX, kY, kZ, kW}` from `shader.h`. -/
structure Swizzle4 where
  c0 : SwizzleSource := SwizzleSource.kX
  c1 : SwizzleSource := SwizzleSource.kY
  c2 : SwizzleSource := SwizzleSource.kZ
  c3 : SwizzleSource := SwizzleSource.kW
deriving DecidableEq

/-- Array indexing `components[i]`; all reads in the source are clamped or
bounded to `0..3`. -/
def Swizzle4.get (s : Swizzle4) : Nat → SwizzleSource
  | 0 => s.c0
  | 1 => s.c1
  | 2 => s.c2
  | _ => s.c3

/-- Embedding of `InstructionResult` from `shader.h`, with its default member
initializers. -/
structure InstructionResult where
  storage_target : InstructionStorageTarget := InstructionStorageTarget.kNone
  storage_index : Nat := 0
  storage_addressing_mode : InstructionStorageAddressingMode :=
    InstructionStorageAddressingMode.kStatic
  is_clamped : Bool := false
  original_write_mask : Nat := 0b0000
  components : Swizzle4 := {}
deriving DecidableEq

/-- Embedding of `InstructionResult::GetUsedWriteMask` from `shader.h`. -/
def InstructionResult.GetUsedWriteMask (r : InstructionResult) : Nat :=
  r.original_write_mask &&&
    GetInstructionStorageTargetUsedComponents r.storage_target

/-- Embedding of `InstructionResult::IsStandardSwizzle` from `shader.h`. -/
def InstructionResult.IsStandardSwizzle (r : InstructionResult) : Bool :=
  r.GetUsedWriteMask == 0b1111 &&
    r.components.c0 == SwizzleSource.kX &&
    r.components.c1 == SwizzleSource.kY &&
    r.components.c2 == SwizzleSource.kZ &&
    r.components.c3 == SwizzleSource.kW

/-- Embedding of `InstructionResult::GetUsedResultComponents` from `shader.h`: the source
components, before swizzling, that survive masking and are not constants. -/
def InstructionResult.GetUsedResultComponents (r : InstructionResult) : Nat :=
  (List.range 4).foldl
    (fun used_components i =>
      if r.GetUsedWriteMask &&& (1 <<< i) ≠ 0 ∧
          SwizzleSource.kX.val ≤ (r.components.get i).val ∧
          (r.components.get i).val ≤ SwizzleSource.kW.val then
        used_components |||
          (1 <<< ((r.components.get i).val - SwizzleSource.kX.val))
      else used_components)
    0

/-- Embedding of `InstructionStorageSource` from `shader.h`: operand classes. -/
inductive InstructionStorageSource
  | kRegister
  | kConstantFloat
  | kVertexFetchConstant
  | kTextureFetchConstant
deriving DecidableEq

/-- Embedding of `InstructionOperand` from `shader.h`, with its default member
initializers. -/
structure InstructionOperand where
  storage_source : InstructionStorageSource := InstructionStorageSource.kRegister
  storage_index : Nat := 0
  storage_addressing_mode : InstructionStorageAddressingMode :=
    InstructionStorageAddressingMode.kStatic
  is_negated : Bool := false
  is_absolute_value : Bool := false
  component_count : Nat := 4
  components : Swizzle4 := {}
deriving DecidableEq

/-- Embedding of `InstructionOperand::GetComponent` from `shader.h`:
`components[std::min(index, component_count - 1)]`. `component_count` is a
`uint32_t`, so the `- 1` wraps modulo `2 ^ 32`. -/
def InstructionOperand.GetComponent (o : InstructionOperand) (index : Nat) :
    SwizzleSource :=
  o.components.get (min index ((o.component_count + 4294967295) % 4294967296))

/-- Embedding of `InstructionOperand::IsStandardSwizzle` from `shader.h`: the `switch` has
a single `case 4` returning the identity-swizzle comparison, and the fallback
returns `false`. -/
def InstructionOperand.IsStandardSwizzle (o : InstructionOperand) : Bool :=
  if o.component_count = 4 then
    o.components.c0 == SwizzleSource.kX &&
      o.components.c1 == SwizzleSource.kY &&
      o.components.c2 == SwizzleSource.kZ &&
      o.components.c3 == SwizzleSource.kW
  else false

/-- Embedding of `InstructionOperand::GetAbsoluteIdenticalComponents` from `shader.h`. -/
def InstructionOperand.GetAbsoluteIdenticalComponents
    (o other : InstructionOperand) : Nat :=
  if o.storage_source ≠ other.storage_source ∨
      o.storage_index ≠ other.storage_index ∨
      o.storage_addressing_mode ≠ other.storage_addressing_mode then 0
  else
    (List.range 4).foldl
      (fun identical_components i =>
        identical_components |||
          ((if o.GetComponent i = other.GetComponent i then 1 else 0) <<< i))
      0

/-- Embedding of `InstructionOperand::GetIdenticalComponents` from `shader.h`. -/
def InstructionOperand.GetIdenticalComponents
    (o other : InstructionOperand) : Nat :=
  if o.is_negated ≠ other.is_negated ∨
      o.is_absolute_value ≠ other.is_absolute_value then 0
  else o.GetAbsoluteIdenticalComponents other

/-- Embedding of `ParsedAluInstruction` from `shader.h`, with its default member
initializers. The two display-only `const char*` opcode-name fields are
omitted (they carry no semantics). The `vector_operands[3]` and
`scalar_operands[2]` arrays are embedded as functions from `Fin 3` / `Fin 2`;
a default-constructed operand fills unset slots, as in C++. -/
structure ParsedAluInstruction where
  vector_opcode : ucode.AluVectorOpcode := ucode.AluVectorOpcode.kAdd
  scalar_opcode : ucode.AluScalarOpcode := ucode.AluScalarOpcode.kAdds
  is_predicated : Bool := false
  predicate_condition : Bool := false
  vector_and_constant_result : InstructionResult := {}
  scalar_result : InstructionResult := {}
  vector_operand_count : Nat := 0
  vector_operands : Fin 3 → InstructionOperand := fun _ => {}
  scalar_operand_count : Nat := 0
  scalar_operands : Fin 2 → InstructionOperand := fun _ => {}

/-- Embedding of `ParsedAluInstruction::IsScalarOpDefaultNop` from `shader.h`. -/
def ParsedAluInstruction.IsScalarOpDefaultNop (a : ParsedAluInstruction) :
    Bool :=
  if a.scalar_opcode ≠ ucode.AluScalarOpcode.kRetainPrev ∨
      a.scalar_result.original_write_mask ≠ 0 ∨
      a.scalar_result.is_clamped = true then false
  else if a.scalar_result.storage_target =
      InstructionStorageTarget.kRegister then
    decide (a.scalar_result.storage_index = 0 ∧
      a.scalar_result.storage_addressing_mode =
        InstructionStorageAddressingMode.kStatic)
  else true

/-- Embedding of `ParsedAluInstruction::IsVectorOpDefaultNop` from `shader.h`. -/
def ParsedAluInstruction.IsVectorOpDefaultNop (a : ParsedAluInstruction) :
    Bool :=
  if a.vector_opcode ≠ ucode.AluVectorOpcode.kMax ∨
      a.vector_and_constant_result.original_write_mask ≠ 0 ∨
      a.vector_and_constant_result.is_clamped = true ∨
      (a.vector_operands 0).storage_source ≠
        InstructionStorageSource.kRegister ∨
      (a.vector_operands 0).storage_index ≠ 0 ∨
      (a.vector_operands 0).storage_addressing_mode ≠
        InstructionStorageAddressingMode.kStatic ∨
      (a.vector_operands 0).is_negated = true ∨
      (a.vector_operands 0).is_absolute_value = true ∨
      (a.vector_operands 0).IsStandardSwizzle = false ∨
      (a.vector_operands 1).storage_source ≠
        InstructionStorageSource.kRegister ∨
      (a.vector_operands 1).storage_index ≠ 0 ∨
      (a.vector_operands 1).storage_addressing_mode ≠
        InstructionStorageAddressingMode.kStatic ∨
      (a.vector_operands 1).is_negated = true ∨
      (a.vector_operands 1).is_absolute_value = true ∨
      (a.vector_operands 1).IsStandardSwizzle = false then false
  else if a.vector_and_constant_result.storage_target =
      InstructionStorageTarget.kRegister then
    decide (a.vector_and_constant_result.storage_index = 0 ∧
      a.vector_and_constant_result.storage_addressing_mode =
        InstructionStorageAddressingMode.kStatic)
  else !a.IsScalarOpDefaultNop

/-- Embedding of `ParsedAluInstruction::IsNop` from `shader.h` (translation-only dead-code
test). -/
def ParsedAluInstruction.IsNop (a : ParsedAluInstruction) : Bool :=
  a.scalar_opcode == ucode.AluScalarOpcode.kRetainPrev &&
    a.scalar_result.GetUsedWriteMask == 0 &&
    a.vector_and_constant_result.GetUsedWriteMask == 0 &&
    !ucode.AluVectorOpHasSideEffects a.vector_opcode

/-- The condition of the single `if` in
`ParsedAluInstruction::GetMemExportStreamConstant` from `shader.h`. -/
def ParsedAluInstruction.MemExportStreamPattern (a : ParsedAluInstruction) :
    Prop :=
  a.vector_and_constant_result.storage_target =
      InstructionStorageTarget.kExportAddress ∧
    a.vector_opcode = ucode.AluVectorOpcode.kMad ∧
    a.vector_and_constant_result.GetUsedResultComponents = 0b1111 ∧
    a.vector_and_constant_result.is_clamped = false ∧
    (a.vector_operands 2).storage_source =
      InstructionStorageSource.kConstantFloat ∧
    (a.vector_operands 2).storage_addressing_mode =
      InstructionStorageAddressingMode.kStatic ∧
    (a.vector_operands 2).IsStandardSwizzle = true ∧
    (a.vector_operands 2).is_negated = false ∧
    (a.vector_operands 2).is_absolute_value = false

instance (a : ParsedAluInstruction) : Decidable a.MemExportStreamPattern := by
  unfold ParsedAluInstruction.MemExportStreamPattern
  infer_instance

/-- Embedding of `ParsedAluInstruction::GetMemExportStreamConstant` from `shader.h`. -/
def ParsedAluInstruction.GetMemExportStreamConstant
    (a : ParsedAluInstruction) : Nat :=
  if a.MemExportStreamPattern then (a.vector_operands 2).storage_index
  else UINT32_MAX

/-- Embedding of `Shader::ConstantRegisterMap` from `shader.h`. The four `uint64_t` blocks
of `float_bitmap[256 / 64]` are embedded as a function read at indices 0-3,
and the eight `uint32_t` blocks of `bool_bitmap[256 / 32]` likewise; each
block is a machine word. -/
structure ConstantRegisterMap where
  float_bitmap : Nat → Nat
  loop_bitmap : Nat
  bool_bitmap : Nat → Nat
  float_count : Nat
  float_dynamic_addressing : Bool

/-- Embedding of `ConstantRegisterMap::GetPackedFloatConstantIndex` from `shader.h`:
the position of a referenced float4 constant in the tightly packed buffer,
or `UINT32_MAX` if not found. -/
def ConstantRegisterMap.GetPackedFloatConstantIndex (m : ConstantRegisterMap)
    (float_constant : Nat) : Nat :=
  if 256 ≤ float_constant then UINT32_MAX
  else if m.float_dynamic_addressing then float_constant
  else if m.float_bitmap (float_constant / 64) &&&
      (1 <<< (float_constant % 64)) = 0 then UINT32_MAX
  else
    (List.range (float_constant / 64)).foldl
        (fun offset i => offset + xe.bit_count (m.float_bitmap i)) 0 +
      xe.bit_count (m.float_bitmap (float_constant / 64) &&&
        ((1 <<< (float_constant % 64)) - 1))

/-- Bit `i` of the 256-bit float-constant usage bitmap: bit `i % 64` of
64-bit block `i / 64`. -/
def ConstantRegisterMap.FloatBitSet (m : ConstantRegisterMap) (i : Nat) :
    Bool :=
  (m.float_bitmap (i / 64)).testBit (i % 64)

/-- The number of set usage-bitmap bits at indices strictly below `i`. -/
def ConstantRegisterMap.LowerSetBits (m : ConstantRegisterMap) (i : Nat) :
    Nat :=
  (List.range i).countP fun j => m.FloatBitSet j

end gpu

end xe

namespace xe.gpu

/-- Two operands address the same storage: same source class, same index,
same addressing mode (the guard of `GetAbsoluteIdenticalComponents`). -/
def InstructionOperand.SameStorage (o p : InstructionOperand) : Prop :=
  o.storage_source = p.storage_source ∧
    o.storage_index = p.storage_index ∧
    o.storage_addressing_mode = p.storage_addressing_mode

instance (o p : InstructionOperand) : Decidable (o.SameStorage p) := by
  unfold InstructionOperand.SameStorage
  infer_instance

/-- Absorption of a repeated mask: `(a &&& m) &&& m = a &&& m`. -/
theorem land_self_absorb (a m : Nat) : (a &&& m) &&& m = a &&& m := by
  rw [Nat.and_assoc]
  congr 1
  apply Nat.eq_of_testBit_eq
  intro i
  simp [Nat.testBit_land, Bool.and_self]

/-- The or-accumulating loop of `GetAbsoluteIdenticalComponents`, unfolded
over `List.range 4`. -/
theorem fold4_or_eq (q : Nat → Prop) [DecidablePred q] :
    (List.range 4).foldl
        (fun acc j => acc ||| ((if q j then 1 else 0) <<< j)) 0 =
      ((((0 : Nat) ||| ((if q 0 then 1 else 0) <<< 0)) |||
            ((if q 1 then 1 else 0) <<< 1)) |||
          ((if q 2 then 1 else 0) <<< 2)) |||
        ((if q 3 then 1 else 0) <<< 3) := rfl

/-- Bit `i < 4` of the or-accumulated component mask is set exactly when the
per-lane predicate holds at `i`. -/
theorem fold4_testBit (q : Nat → Prop) [DecidablePred q] (i : Nat)
    (hi : i < 4) :
    ((List.range 4).foldl
          (fun acc j => acc ||| ((if q j then 1 else 0) <<< j)) 0).testBit i =
      true ↔ q i := by
  rw [fold4_or_eq]
  by_cases h0 : q 0 <;> by_cases h1 : q 1 <;> by_cases h2 : q 2 <;>
    by_cases h3 : q 3 <;>
    simp only [h0, h1, h2, h3, if_true, if_false, ite_true, ite_false] <;>
    (interval_cases i <;> simp [h0, h1, h2, h3] <;> decide)

/-- The early-return guard of `GetAbsoluteIdenticalComponents` is the
negation of `SameStorage`. -/
theorem absIdentical_guard_iff (o p : InstructionOperand) :
    (o.storage_source ≠ p.storage_source ∨
        o.storage_index ≠ p.storage_index ∨
        o.storage_addressing_mode ≠ p.storage_addressing_mode) ↔
      ¬ o.SameStorage p := by
  unfold InstructionOperand.SameStorage
  tauto

/-- A standard-swizzle operand has exactly four components in the identity
arrangement. -/
theorem isStandardSwizzle_operand_elim (o : InstructionOperand)
    (h : o.IsStandardSwizzle = true) :
    o.component_count = 4 ∧ o.components = {} := by
  unfold InstructionOperand.IsStandardSwizzle at h
  split at h
  · next hc =>
    refine ⟨hc, ?_⟩
    simp only [Bool.and_eq_true, beq_iff_eq] at h
    obtain ⟨⟨⟨h0, h1⟩, h2⟩, h3⟩ := h
    have hsplit : o.components =
        { c0 := o.components.c0, c1 := o.components.c1,
          c2 := o.components.c2, c3 := o.components.c3 } := rfl
    rw [hsplit, h0, h1, h2, h3]
  · exact absurd h (by simp)

/-- C9: operands with identical storage identity and identical standard
swizzles that differ only in the negate flag give `GetIdenticalComponents = 0`
but `GetAbsoluteIdenticalComponents = 0b1111`; in general both functions give
`0` when the storage identity differs, `GetIdenticalComponents` additionally
gives `0` when the negate or absolute-value flags differ, and otherwise each
sets bit `i < 4` exactly when `GetComponent i` agrees on the two operands. -/
theorem identicalComponents_spec (o p : InstructionOperand) :
    (o.SameStorage p → o.IsStandardSwizzle = true →
      p.IsStandardSwizzle = true → o.is_negated ≠ p.is_negated →
      o.GetIdenticalComponents p = 0 ∧
        o.GetAbsoluteIdenticalComponents p = 0b1111) ∧
    (¬ o.SameStorage p →
      o.GetIdenticalComponents p = 0 ∧
        o.GetAbsoluteIdenticalComponents p = 0) ∧
    ((o.is_negated ≠ p.is_negated ∨
        o.is_absolute_value ≠ p.is_absolute_value) →
      o.GetIdenticalComponents p = 0) ∧
    (o.SameStorage p → ∀ i, i < 4 →
      ((o.GetAbsoluteIdenticalComponents p).testBit i = true ↔
        o.GetComponent i = p.GetComponent i)) ∧
    (o.SameStorage p → o.is_negated = p.is_negated →
      o.is_absolute_value = p.is_absolute_value → ∀ i, i < 4 →
      ((o.GetIdenticalComponents p).testBit i = true ↔
        o.GetComponent i = p.GetComponent i)) := by
  refine ⟨?_, ?_, ?_, ?_, ?_⟩
  · intro hs ho hp hneg
    obtain ⟨hoc, hocomp⟩ := isStandardSwizzle_operand_elim o ho
    obtain ⟨hpc, hpcomp⟩ := isStandardSwizzle_operand_elim p hp
    have hq : ∀ i, o.GetComponent i = p.GetComponent i := by
      intro i
      unfold InstructionOperand.GetComponent
      rw [hoc, hpc, hocomp, hpcomp]
    constructor
    · unfold InstructionOperand.GetIdenticalComponents
      rw [if_pos (Or.inl hneg)]
    · unfold InstructionOperand.GetAbsoluteIdenticalComponents
      rw [if_neg (fun hg => (absIdentical_guard_iff o p).mp hg hs)]
      rw [fold4_or_eq fun j => o.GetComponent j = p.GetComponent j]
      rw [if_pos (hq 0), if_pos (hq 1), if_pos (hq 2), if_pos (hq 3)]
      decide
  · intro hs
    have h0 : o.GetAbsoluteIdenticalComponents p = 0 := by
      unfold InstructionOperand.GetAbsoluteIdenticalComponents
      rw [if_pos ((absIdentical_guard_iff o p).mpr hs)]
    refine ⟨?_, h0⟩
    unfold InstructionOperand.GetIdenticalComponents
    split
    · rfl
    · exact h0
  · intro hflags
    unfold InstructionOperand.GetIdenticalComponents
    rw [if_pos hflags]
  · intro hs i hi
    unfold InstructionOperand.GetAbsoluteIdenticalComponents
    rw [if_neg (fun hg => (absIdentical_guard_iff o p).mp hg hs)]
    exact fold4_testBit (fun j => o.GetComponent j = p.GetComponent j) i hi
  · intro hs hneg habs i hi
    unfold InstructionOperand.GetIdenticalComponents
    rw [if_neg (by push_neg; exact ⟨hneg, habs⟩)]
    unfold InstructionOperand.GetAbsoluteIdenticalComponents
    rw [if_neg (fun hg => (absIdentical_guard_iff o p).mp hg hs)]
    exact fold4_testBit (fun j => o.GetComponent j = p.GetComponent j) i hi

/-- C9 witness: default operands differing only in `is_negated` give
`GetIdenticalComponents = 0` and `GetAbsoluteIdenticalComponents = 0b1111`. -/
theorem identicalComponents_spec_witness :
    ({ is_negated := true } : InstructionOperand).GetIdenticalComponents
        ({} : InstructionOperand) = 0 ∧
      ({ is_negated := true } : InstructionOperand).GetAbsoluteIdenticalComponents
        ({} : InstructionOperand) = 0b1111 :=
  (identicalComponents_spec { is_negated := true } {}).1 ⟨rfl, rfl, rfl⟩
    (by decide) (by decide) (by decide)

/-- C7: for an operand with `component_count = n`, `1 ≤ n ≤ 4`, and any
`i < 4`, `GetComponent i` is `components[min i (n - 1)]`, and hence every
`i ≥ n - 1` yields the same value as `GetComponent (n - 1)`: the rightmost
declared component is replicated, never indexed past or wrapped around. -/
theorem getComponent_replicates (o : InstructionOperand) (i : Nat)
    (h1 : 1 ≤ o.component_count) (h4 : o.component_count ≤ 4) (_hi : i < 4) :
    o.GetComponent i = o.components.get (min i (o.component_count - 1)) ∧
      (o.component_count - 1 ≤ i →
        o.GetComponent i = o.GetComponent (o.component_count - 1)) := by
  have hwrap : (o.component_count + 4294967295) % 4294967296 =
      o.component_count - 1 := by omega
  constructor
  · unfold InstructionOperand.GetComponent
    rw [hwrap]
  · intro hge
    unfold InstructionOperand.GetComponent
    rw [hwrap]
    have h1' : min i (o.component_count - 1) = o.component_count - 1 :=
      Nat.min_eq_right hge
    have h2' : min (o.component_count - 1) (o.component_count - 1) =
        o.component_count - 1 := Nat.min_self _
    rw [h1', h2']

/-- C7 witness: a two-component operand replicates its second component at
indices 2 and 3. -/
theorem getComponent_replicates_witness :
    ({ component_count := 2 } : InstructionOperand).GetComponent 3 =
      ({ component_count := 2 } : InstructionOperand).components.get
        (min 3 (2 - 1)) ∧
      ({ component_count := 2 } : InstructionOperand).GetComponent 3 =
        ({ component_count := 2 } : InstructionOperand).GetComponent (2 - 1) :=
  ⟨(getComponent_replicates { component_count := 2 } 3 (by decide) (by decide)
      (by decide)).1,
    (getComponent_replicates { component_count := 2 } 3 (by decide) (by decide)
      (by decide)).2 (by decide)⟩

/-- C8: `GetUsedWriteMask` is `original_write_mask` ANDed with the fixed
component mask of the storage target, hence always a subset of that fixed
mask; in particular at most bit `0b0001` for the depth target, at most
`0b0111` for the point-size/edge-flag/kill-vertex target, and empty for the
none target. -/
theorem getUsedWriteMask_subset_target_mask (r : InstructionResult) :
    r.GetUsedWriteMask = r.original_write_mask &&&
        GetInstructionStorageTargetUsedComponents r.storage_target ∧
      r.GetUsedWriteMask &&&
          GetInstructionStorageTargetUsedComponents r.storage_target =
        r.GetUsedWriteMask ∧
      (r.storage_target = InstructionStorageTarget.kDepth →
        r.GetUsedWriteMask &&& 0b0001 = r.GetUsedWriteMask) ∧
      (r.storage_target = InstructionStorageTarget.kPointSizeEdgeFlagKillVertex →
        r.GetUsedWriteMask &&& 0b0111 = r.GetUsedWriteMask) ∧
      (r.storage_target = InstructionStorageTarget.kNone →
        r.GetUsedWriteMask = 0) := by
  refine ⟨rfl, ?_, ?_, ?_, ?_⟩
  · exact land_self_absorb _ _
  · intro h
    unfold InstructionResult.GetUsedWriteMask
    rw [h]
    exact land_self_absorb _ _
  · intro h
    unfold InstructionResult.GetUsedWriteMask
    rw [h]
    exact land_self_absorb _ _
  · intro h
    unfold InstructionResult.GetUsedWriteMask
    rw [h]
    exact Nat.and_zero _

/-- C8 witness: a depth-target result with a full nominal write mask has used
write mask `0b0001`, a subset of the depth target's fixed mask. -/
theorem getUsedWriteMask_subset_target_mask_witness :
    ({ storage_target := InstructionStorageTarget.kDepth,
        original_write_mask := 0b1111 } : InstructionResult).GetUsedWriteMask
        &&& 0b0001 =
      ({ storage_target := InstructionStorageTarget.kDepth,
          original_write_mask := 0b1111 } :
        InstructionResult).GetUsedWriteMask :=
  (getUsedWriteMask_subset_target_mask
      { storage_target := InstructionStorageTarget.kDepth,
        original_write_mask := 0b1111 }).2.2.1 rfl

/-- C10: a result whose storage target physically holds fewer than all four
components (the none, depth, and point-size/edge-flag/kill-vertex targets)
never has a standard swizzle, because `IsStandardSwizzle` requires the used
write mask to be the full `0b1111`. -/
theorem isStandardSwizzle_false_of_partial_target (r : InstructionResult)
    (h : r.storage_target = InstructionStorageTarget.kNone ∨
      r.storage_target = InstructionStorageTarget.kDepth ∨
      r.storage_target = InstructionStorageTarget.kPointSizeEdgeFlagKillVertex) :
    r.IsStandardSwizzle = false := by
  have hmask : r.GetUsedWriteMask ≠ 0b1111 := by
    have hle : r.GetUsedWriteMask ≤
        GetInstructionStorageTargetUsedComponents r.storage_target :=
      Nat.and_le_right
    rcases h with h | h | h <;>
      · rw [h] at hle
        simp [GetInstructionStorageTargetUsedComponents] at hle
        omega
  unfold InstructionResult.IsStandardSwizzle
  simp [hmask]

/-- C10 witness: a depth-target result with full nominal mask and identity
components is still not standard-swizzle. -/
theorem isStandardSwizzle_false_of_partial_target_witness :
    ({ storage_target := InstructionStorageTarget.kDepth,
        original_write_mask := 0b1111 } :
      InstructionResult).IsStandardSwizzle = false :=
  isStandardSwizzle_false_of_partial_target
    { storage_target := InstructionStorageTarget.kDepth,
      original_write_mask := 0b1111 }
    (Or.inr (Or.inl rfl))

/-- The fully-default vector no-op against a plain register target described
by the spec: opcode `kMax`, empty write mask, unclamped, both vector operands
default-constructed (register 0, static, no modifiers, standard swizzle),
result register 0 with static addressing. -/
def defaultVectorNopAlu : ParsedAluInstruction :=
  { vector_opcode := ucode.AluVectorOpcode.kMax
    vector_and_constant_result :=
      { storage_target := InstructionStorageTarget.kRegister } }

/-- Variant of `defaultVectorNopAlu` with its vector-and-constant result replaced. -/
def vnopWithResult (r : InstructionResult) : ParsedAluInstruction :=
  { defaultVectorNopAlu with vector_and_constant_result := r }

/-- Variant of `defaultVectorNopAlu` with vector operand 0 replaced. -/
def vnopWithOp0 (op : InstructionOperand) : ParsedAluInstruction :=
  { defaultVectorNopAlu with
    vector_operands := fun i => if i.val = 0 then op else {} }

/-- Variant of `defaultVectorNopAlu` with vector operand 1 replaced. -/
def vnopWithOp1 (op : InstructionOperand) : ParsedAluInstruction :=
  { defaultVectorNopAlu with
    vector_operands := fun i => if i.val = 1 then op else {} }

/-- C3 counterexample: the claim that changing any single field of the
default vector-nop instruction flips `IsVectorOpDefaultNop()` to false fails
on the code: changing the single field `storage_target` of the result from
the register target to an interpolator export (while the scalar opcode is the
default `kAdds`, not a default no-op) still yields true, as does changing the
single field `is_predicated`. -/
theorem vectorOpDefaultNop_single_field_flip_fails :
    defaultVectorNopAlu.IsVectorOpDefaultNop = true ∧
      (vnopWithResult { storage_target :=
          InstructionStorageTarget.kInterpolator }).IsVectorOpDefaultNop =
        true ∧
      ({ defaultVectorNopAlu with
          is_predicated := true } : ParsedAluInstruction).IsVectorOpDefaultNop =
        true := by
  decide

/-- C3 (amended): the default vector-nop instruction yields
`IsVectorOpDefaultNop() = true`; changing any single one of the fields the
predicate examines — the vector opcode, the result's write mask, clamp flag,
storage index or addressing mode, or either of the first two operands'
storage source, index, addressing mode, negate flag, absolute-value flag,
component count or swizzle — yields false; changing the result's storage
target to a non-register target yields true while the scalar side is not a
default no-op and false when it is. -/
theorem vectorOpDefaultNop_field_sensitivity :
    defaultVectorNopAlu.IsVectorOpDefaultNop = true ∧
      ({ defaultVectorNopAlu with
          vector_opcode :=
            ucode.AluVectorOpcode.kAdd } :
        ParsedAluInstruction).IsVectorOpDefaultNop = false ∧
      (vnopWithResult
        { storage_target := InstructionStorageTarget.kRegister
          original_write_mask := 0b0001 }).IsVectorOpDefaultNop = false ∧
      (vnopWithResult
        { storage_target := InstructionStorageTarget.kRegister
          is_clamped := true }).IsVectorOpDefaultNop = false ∧
      (vnopWithResult
        { storage_target := InstructionStorageTarget.kRegister
          storage_index := 1 }).IsVectorOpDefaultNop = false ∧
      (vnopWithResult
        { storage_target := InstructionStorageTarget.kRegister
          storage_addressing_mode :=
            InstructionStorageAddressingMode.kAddressAbsolute
          }).IsVectorOpDefaultNop = false ∧
      (vnopWithOp0 { storage_source :=
          InstructionStorageSource.kConstantFloat }).IsVectorOpDefaultNop =
        false ∧
      (vnopWithOp0 { storage_index := 1 }).IsVectorOpDefaultNop = false ∧
      (vnopWithOp0 { storage_addressing_mode :=
          InstructionStorageAddressingMode.kAddressRelative
        }).IsVectorOpDefaultNop = false ∧
      (vnopWithOp0 { is_negated := true }).IsVectorOpDefaultNop = false ∧
      (vnopWithOp0 { is_absolute_value := true }).IsVectorOpDefaultNop =
        false ∧
      (vnopWithOp0 { component_count := 3 }).IsVectorOpDefaultNop = false ∧
      (vnopWithOp0 { components :=
          { c0 := SwizzleSource.kY } }).IsVectorOpDefaultNop = false ∧
      (vnopWithOp1 { storage_source :=
          InstructionStorageSource.kConstantFloat }).IsVectorOpDefaultNop =
        false ∧
      (vnopWithOp1 { storage_index := 1 }).IsVectorOpDefaultNop = false ∧
      (vnopWithOp1 { storage_addressing_mode :=
          InstructionStorageAddressingMode.kAddressRelative
        }).IsVectorOpDefaultNop = false ∧
      (vnopWithOp1 { is_negated := true }).IsVectorOpDefaultNop = false ∧
      (vnopWithOp1 { is_absolute_value := true }).IsVectorOpDefaultNop =
        false ∧
      (vnopWithOp1 { component_count := 2 }).IsVectorOpDefaultNop = false ∧
      (vnopWithOp1 { components :=
          { c3 := SwizzleSource.kZ } }).IsVectorOpDefaultNop = false ∧
      (vnopWithResult { storage_target :=
          InstructionStorageTarget.kInterpolator }).IsVectorOpDefaultNop =
        true ∧
      ({ vnopWithResult { storage_target :=
            InstructionStorageTarget.kInterpolator } with
          scalar_opcode :=
            ucode.AluScalarOpcode.kRetainPrev } :
        ParsedAluInstruction).IsVectorOpDefaultNop = false := by
  decide

/-- C4: whenever the vector result's storage target is not the plain register
target, `IsVectorOpDefaultNop()` can only be true if `IsScalarOpDefaultNop()`
is false (the vector op is kept to mark that the destination is an export). -/
theorem vectorOpDefaultNop_export_needs_scalar_non_nop
    (a : ParsedAluInstruction)
    (ht : a.vector_and_constant_result.storage_target ≠
      InstructionStorageTarget.kRegister)
    (hv : a.IsVectorOpDefaultNop = true) :
    a.IsScalarOpDefaultNop = false := by
  unfold ParsedAluInstruction.IsVectorOpDefaultNop at hv
  split at hv
  · exact absurd hv (by simp)
  · simpa using hv

/-- C4 witness: a default-nop-shaped vector op against an interpolator export
with the default (`kAdds`) scalar opcode has a true vector-nop test, and the
theorem yields that its scalar-nop test is false. -/
theorem vectorOpDefaultNop_export_needs_scalar_non_nop_witness :
    (vnopWithResult { storage_target :=
        InstructionStorageTarget.kInterpolator }).IsScalarOpDefaultNop =
      false :=
  vectorOpDefaultNop_export_needs_scalar_non_nop
    (vnopWithResult { storage_target :=
      InstructionStorageTarget.kInterpolator })
    (by decide) (by decide)

/-- C5: `IsNop()` is true exactly when the scalar opcode is the
retain-previous-value opcode, both used write masks are empty, and the vector
opcode has no side effects; consequently `IsNop() = true` implies both used
write masks are empty. -/
theorem isNop_spec (a : ParsedAluInstruction) :
    (a.IsNop = true ↔
      a.scalar_opcode = ucode.AluScalarOpcode.kRetainPrev ∧
        a.scalar_result.GetUsedWriteMask = 0 ∧
        a.vector_and_constant_result.GetUsedWriteMask = 0 ∧
        ucode.AluVectorOpHasSideEffects a.vector_opcode = false) ∧
      (a.IsNop = true →
        a.scalar_result.GetUsedWriteMask = 0 ∧
          a.vector_and_constant_result.GetUsedWriteMask = 0) := by
  have hiff : a.IsNop = true ↔
      a.scalar_opcode = ucode.AluScalarOpcode.kRetainPrev ∧
        a.scalar_result.GetUsedWriteMask = 0 ∧
        a.vector_and_constant_result.GetUsedWriteMask = 0 ∧
        ucode.AluVectorOpHasSideEffects a.vector_opcode = false := by
    unfold ParsedAluInstruction.IsNop
    simp [Bool.and_eq_true, beq_iff_eq, Bool.not_eq_true', and_assoc]
  refine ⟨hiff, fun h => ?_⟩
  obtain ⟨_, h1, h2, _⟩ := hiff.mp h
  exact ⟨h1, h2⟩

/-- C5 witness: a retain-previous scalar op with default (target-none)
results and the side-effect-free default vector opcode is a nop, and by the
theorem both used write masks are empty. -/
theorem isNop_spec_witness :
    ({ scalar_opcode := ucode.AluScalarOpcode.kRetainPrev } :
        ParsedAluInstruction).scalar_result.GetUsedWriteMask = 0 ∧
      ({ scalar_opcode := ucode.AluScalarOpcode.kRetainPrev } :
        ParsedAluInstruction).vector_and_constant_result.GetUsedWriteMask =
        0 :=
  (isNop_spec
      { scalar_opcode := ucode.AluScalarOpcode.kRetainPrev }).2 (by decide)

/-- The "normal" memexport eA write: a MAD to the export-address target with
a full identity result and a statically-addressed float constant (index 5) as
the third operand. -/
def memExportMadStreamAlu : ParsedAluInstruction :=
  { vector_opcode := ucode.AluVectorOpcode.kMad
    vector_and_constant_result :=
      { storage_target := InstructionStorageTarget.kExportAddress
        original_write_mask := 0b1111 }
    vector_operands := fun i =>
      if i.val = 2 then
        { storage_source := InstructionStorageSource.kConstantFloat
          storage_index := 5 }
      else {} }

/-- Variant of `memExportMadStreamAlu` with the result swizzle replaced by x in every
lane: all four result lanes are still written, unclamped, but only source
component X is consumed. -/
def memExportMadReplicatedAlu : ParsedAluInstruction :=
  { memExportMadStreamAlu with
    vector_and_constant_result :=
      { storage_target := InstructionStorageTarget.kExportAddress
        original_write_mask := 0b1111
        components :=
          { c0 := SwizzleSource.kX, c1 := SwizzleSource.kX,
            c2 := SwizzleSource.kX, c3 := SwizzleSource.kX } } }

/-- C6 counterexample: an instruction satisfying every condition of the claim
— export-address target, `kMad`, all 4 result lanes written (used write mask
`0b1111`) unclamped, third operand a statically-addressed float constant
(index 5) with standard swizzle and no modifiers — for which
`GetMemExportStreamConstant()` nevertheless returns the not-found sentinel,
because the code requires the used result components (not the write mask) to
be `0b1111` and the replicated x swizzle consumes only component X. -/
theorem memExportStreamConstant_counterexample :
    memExportMadReplicatedAlu.vector_and_constant_result.storage_target =
        InstructionStorageTarget.kExportAddress ∧
      memExportMadReplicatedAlu.vector_opcode =
        ucode.AluVectorOpcode.kMad ∧
      memExportMadReplicatedAlu.vector_and_constant_result.GetUsedWriteMask =
        0b1111 ∧
      memExportMadReplicatedAlu.vector_and_constant_result.is_clamped =
        false ∧
      (memExportMadReplicatedAlu.vector_operands 2).storage_source =
        InstructionStorageSource.kConstantFloat ∧
      (memExportMadReplicatedAlu.vector_operands 2).storage_addressing_mode =
        InstructionStorageAddressingMode.kStatic ∧
      (memExportMadReplicatedAlu.vector_operands 2).IsStandardSwizzle =
        true ∧
      (memExportMadReplicatedAlu.vector_operands 2).is_negated = false ∧
      (memExportMadReplicatedAlu.vector_operands 2).is_absolute_value =
        false ∧
      (memExportMadReplicatedAlu.vector_operands 2).storage_index = 5 ∧
      memExportMadReplicatedAlu.GetMemExportStreamConstant = UINT32_MAX := by
  decide

/-- C6 (amended): `GetMemExportStreamConstant()` returns the storage index of
the third vector operand if and only if the vector result targets the
export-address target, the vector opcode is `kMad`, the used result
components (the source lanes consumed by written, non-constant lanes) are all
four, the result is unclamped, and the third vector operand is a
statically-addressed float constant with standard swizzle and no negate or
absolute-value modifier; in every other case — in particular whenever the
vector opcode is not `kMad`, even with an export-address target — it returns
`UINT32_MAX`. -/
theorem memExportStreamConstant_spec (a : ParsedAluInstruction) :
    (a.MemExportStreamPattern →
      a.GetMemExportStreamConstant = (a.vector_operands 2).storage_index) ∧
      (¬ a.MemExportStreamPattern →
        a.GetMemExportStreamConstant = UINT32_MAX) ∧
      (a.vector_opcode ≠ ucode.AluVectorOpcode.kMad →
        a.GetMemExportStreamConstant = UINT32_MAX) := by
  refine ⟨fun h => ?_, fun h => ?_, fun h => ?_⟩
  · unfold ParsedAluInstruction.GetMemExportStreamConstant
    rw [if_pos h]
  · unfold ParsedAluInstruction.GetMemExportStreamConstant
    rw [if_neg h]
  · unfold ParsedAluInstruction.GetMemExportStreamConstant
    rw [if_neg (fun hp => h hp.2.1)]

/-- C6 witness: the recognized MAD-to-eA idiom yields its stream-constant
index 5, and replacing the opcode by `kAdd` yields the sentinel. -/
theorem memExportStreamConstant_spec_witness :
    memExportMadStreamAlu.GetMemExportStreamConstant = 5 ∧
      ({ memExportMadStreamAlu with
          vector_opcode :=
            ucode.AluVectorOpcode.kAdd } :
        ParsedAluInstruction).GetMemExportStreamConstant = UINT32_MAX :=
  ⟨((memExportStreamConstant_spec memExportMadStreamAlu).1
      (by decide)).trans (by decide),
    (memExportStreamConstant_spec
        { memExportMadStreamAlu with
          vector_opcode := ucode.AluVectorOpcode.kAdd }).2.2 (by decide)⟩

/-- A word ANDed with `1 <<< b` is zero exactly when its bit `b` is clear. -/
theorem land_one_shiftLeft_eq_zero_iff (x b : Nat) :
    x &&& (1 <<< b) = 0 ↔ x.testBit b = false := by
  rw [Nat.one_shiftLeft]
  constructor
  · intro h
    have hb := congrArg (fun y => y.testBit b) h
    simp only [Nat.testBit_land, Nat.zero_testBit] at hb
    rwa [Nat.testBit_two_pow_self, Bool.and_true] at hb
  · intro h
    apply Nat.eq_of_testBit_eq
    intro j
    rw [Nat.testBit_land, Nat.zero_testBit]
    rcases eq_or_ne j b with rfl | hne
    · rw [h, Bool.false_and]
    · rw [Nat.testBit_two_pow_of_ne (Ne.symm hne), Bool.and_false]

/-- Population count of a word masked to its low `b` bits, `b ≤ 64`, counts
exactly the set bits at positions below `b`. -/
theorem bit_count_masked (x b : Nat) (hb : b ≤ 64) :
    xe.bit_count (x &&& ((1 <<< b) - 1)) =
      (List.range b).countP (fun j => x.testBit j) := by
  unfold xe.bit_count
  have hcong : ∀ j ∈ List.range 64,
      ((x &&& ((1 <<< b) - 1)).testBit j = true) ↔
        ((x.testBit j && decide (j < b)) = true) := by
    intro j _
    rw [Nat.one_shiftLeft, Nat.testBit_land, Nat.testBit_two_pow_sub_one]
  rw [List.countP_congr hcong]
  rw [show 64 = b + (64 - b) by omega, List.range_add, List.countP_append,
    List.countP_map]
  have hzero : (List.range (64 - b)).countP
      ((fun j => x.testBit j && decide (j < b)) ∘ (fun i => b + i)) = 0 := by
    rw [List.countP_eq_zero]
    intro j _
    simp [Function.comp]
  rw [hzero, Nat.add_zero]
  apply List.countP_congr
  intro j hj
  have hjb : j < b := List.mem_range.mp hj
  simp [hjb]

/-- The accumulating `offset` loop of `GetPackedFloatConstantIndex` is a sum
of per-block population counts. -/
theorem foldl_add_count (c : Nat → Nat) (l : List Nat) (a : Nat) :
    l.foldl (fun acc i => acc + c i) a = a + (l.map c).sum := by
  induction l generalizing a with
  | nil => simp
  | cons x xs ih =>
    simp only [List.foldl_cons, List.map_cons, List.sum_cons, ih]
    omega

/-- The number of usage-bitmap bits set below a block boundary is the sum of
the population counts of the lower blocks. -/
theorem lowerSetBits_block (m : ConstantRegisterMap) (B : Nat) :
    m.LowerSetBits (64 * B) =
      ((List.range B).map (fun k => xe.bit_count (m.float_bitmap k))).sum := by
  induction B with
  | zero => simp [ConstantRegisterMap.LowerSetBits]
  | succ n ih =>
    unfold ConstantRegisterMap.LowerSetBits at ih ⊢
    rw [List.range_succ, List.map_append, List.sum_append,
      show 64 * (n + 1) = 64 * n + 64 by ring, List.range_add,
      List.countP_append, List.countP_map, ih]
    congr 1
    simp only [List.map_cons, List.map_nil, List.sum_cons, List.sum_nil,
      Nat.add_zero]
    unfold xe.bit_count
    apply List.countP_congr
    intro j hj
    have hj' : j < 64 := List.mem_range.mp hj
    unfold ConstantRegisterMap.FloatBitSet
    simp only [Function.comp]
    rw [show (64 * n + j) / 64 = n by omega, show (64 * n + j) % 64 = j by
      omega]

/-- Splitting the strictly-lower set-bit count at the containing block:
whole lower blocks plus the lower positions within block `B`. -/
theorem lowerSetBits_split (m : ConstantRegisterMap) (B b : Nat)
    (hb : b < 64) :
    m.LowerSetBits (64 * B + b) =
      m.LowerSetBits (64 * B) +
        (List.range b).countP (fun j => (m.float_bitmap B).testBit j) := by
  unfold ConstantRegisterMap.LowerSetBits
  rw [List.range_add, List.countP_append, List.countP_map]
  congr 1
  apply List.countP_congr
  intro j hj
  have hj' : j < b := List.mem_range.mp hj
  unfold ConstantRegisterMap.FloatBitSet
  simp only [Function.comp]
  rw [show (64 * B + j) / 64 = B by omega, show (64 * B + j) % 64 = j by
    omega]

/-- C1: with dynamic addressing off, `GetPackedFloatConstantIndex` packs the
set bits of the 256-bit usage bitmap bijectively onto `[0, popcount)`: an
in-range index whose bit is set maps to the number of set bits at strictly
lower indices (lower blocks plus lower positions within its block), and an
in-range index whose bit is clear maps to the `UINT32_MAX` sentinel. -/
theorem getPackedFloatConstantIndex_spec (m : ConstantRegisterMap)
    (hdyn : m.float_dynamic_addressing = false) (i : Nat) (hi : i < 256) :
    m.GetPackedFloatConstantIndex i =
      if m.FloatBitSet i then m.LowerSetBits i else UINT32_MAX := by
  unfold ConstantRegisterMap.GetPackedFloatConstantIndex
  rw [if_neg (by omega : ¬ 256 ≤ i), hdyn]
  simp only [Bool.false_eq_true, if_false]
  by_cases hset : m.FloatBitSet i = true
  · have hg : ¬ (m.float_bitmap (i / 64) &&& (1 <<< (i % 64)) = 0) := by
      rw [land_one_shiftLeft_eq_zero_iff]
      unfold ConstantRegisterMap.FloatBitSet at hset
      simp [hset]
    rw [if_neg hg, if_pos hset]
    rw [foldl_add_count, Nat.zero_add]
    rw [bit_count_masked _ _ (by omega : i % 64 ≤ 64)]
    have hsplit := lowerSetBits_split m (i / 64) (i % 64)
      (Nat.mod_lt _ (by norm_num))
    rw [Nat.div_add_mod i 64] at hsplit
    rw [hsplit, lowerSetBits_block]
  · have hg : m.float_bitmap (i / 64) &&& (1 <<< (i % 64)) = 0 := by
      rw [land_one_shiftLeft_eq_zero_iff]
      unfold ConstantRegisterMap.FloatBitSet at hset
      simpa using hset
    rw [if_pos hg, if_neg hset]

/-- The end-to-end scenario bitmap: float-constant usage bits 3, 5 and 130
set (block 0 holds `0b101000 = 40`, block 2 holds bit 2, value 4), dynamic
addressing off. -/
def scenarioConstantMap : ConstantRegisterMap :=
  { float_bitmap := fun n => if n = 0 then 40 else if n = 2 then 4 else 0
    loop_bitmap := 0
    bool_bitmap := fun _ => 0
    float_count := 3
    float_dynamic_addressing := false }

/-- C1 witness: on the bitmap with bits 3, 5, 130 set,
`GetPackedFloatConstantIndex` gives 3 ↦ 0, 5 ↦ 1, 130 ↦ 2, and the unset
index 4 ↦ not found. -/
theorem getPackedFloatConstantIndex_spec_witness :
    scenarioConstantMap.GetPackedFloatConstantIndex 3 = 0 ∧
      scenarioConstantMap.GetPackedFloatConstantIndex 5 = 1 ∧
      scenarioConstantMap.GetPackedFloatConstantIndex 130 = 2 ∧
      scenarioConstantMap.GetPackedFloatConstantIndex 4 = UINT32_MAX :=
  ⟨(getPackedFloatConstantIndex_spec scenarioConstantMap rfl 3
      (by omega)).trans (by decide),
    (getPackedFloatConstantIndex_spec scenarioConstantMap rfl 5
      (by omega)).trans (by decide),
    (getPackedFloatConstantIndex_spec scenarioConstantMap rfl 130
      (by omega)).trans (by decide),
    (getPackedFloatConstantIndex_spec scenarioConstantMap rfl 4
      (by omega)).trans (by decide)⟩

/-- C2: with dynamic addressing on, `GetPackedFloatConstantIndex` is the
identity on every in-range float-constant index, and never returns the
`UINT32_MAX` sentinel for an in-range index, whatever the usage bitmap
holds. -/
theorem getPackedFloatConstantIndex_dynamic (m : ConstantRegisterMap)
    (hdyn : m.float_dynamic_addressing = true) (i : Nat) (hi : i < 256) :
    m.GetPackedFloatConstantIndex i = i ∧
      m.GetPackedFloatConstantIndex i ≠ UINT32_MAX := by
  have h : m.GetPackedFloatConstantIndex i = i := by
    unfold ConstantRegisterMap.GetPackedFloatConstantIndex
    rw [if_neg (by omega : ¬ 256 ≤ i), hdyn]
    simp
  refine ⟨h, ?_⟩
  rw [h]
  unfold UINT32_MAX
  omega

/-- A dynamically-addressed map with an all-zero bitmap. -/
def dynamicConstantMap : ConstantRegisterMap :=
  { float_bitmap := fun _ => 0
    loop_bitmap := 0
    bool_bitmap := fun _ => 0
    float_count := 0
    float_dynamic_addressing := true }

/-- C2 witness: a dynamically-addressed map with an all-zero bitmap still
maps index 77 to itself, not to the sentinel. -/
theorem getPackedFloatConstantIndex_dynamic_witness :
    dynamicConstantMap.GetPackedFloatConstantIndex 77 = 77 ∧
      dynamicConstantMap.GetPackedFloatConstantIndex 77 ≠ UINT32_MAX :=
  getPackedFloatConstantIndex_dynamic dynamicConstantMap rfl 77 (by omega)

end xe.gpu
